import Mathlib

/-!
Verification of the customer_ai_assisstance connection gateway.

The development shallowly embeds the per-connection handler
(`src/ws/ws_handler.rs`) as a pure, trace-producing function.  External
collaborators (the channel, the authenticator, the session cache, the
backend) are represented by explicit outcome parameters; the handler body
is translated statement by statement from the Rust source.  Parts of the
repository that are referenced but whose source files were not available
(the connection-control decoder and the broadcaster registry) are modelled
from the specification and marked as such in their doc comments.
-/

namespace CustomerAI

/-- JSON values, as far as the gateway's decoders inspect them: strings,
unsigned integers, objects, and one collapsed constructor for every other
shape (arrays, booleans, null, non-integer numbers). -/
inductive Json where
  | str : String → Json
  | num : Nat → Json
  | obj : List (String × Json) → Json
  | other : Json

/-- Identity claims produced by the external authenticator: the numeric
subject (`claims.sub`, used as the user id) and the serialized claims blob
(`serde_json::to_string(claims)`). -/
structure Claims where
  sub : Nat
  blob : String

/-- The application message vocabulary, from
`src/payloads/communication_request.rs`: an internally tagged enum
(tag field `type`) with the single variant `ai_request` carrying a
`prompt` string. -/
inductive CommunicationRequest where
  | AIRequest (prompt : String)

/-- Decoder for `CommunicationRequest`, mirroring
`serde_json::from_str::<CommunicationRequest>`: the object must carry the
tag field `type` with value `ai_request` and a string field `prompt`;
unknown extra fields are ignored (serde default). -/
def CommunicationRequest.fromJson : Json → Option CommunicationRequest
  | .obj fields =>
    match fields.lookup "type" with
    | some (.str "ai_request") =>
      match fields.lookup "prompt" with
      | some (.str p) => some (.AIRequest p)
      | _ => none
    | _ => none
  | _ => none

/-- Modelled from the spec: the connection-control message vocabulary
(`src/payloads/connection_request.rs` is not among the available sources).
Per the spec it is a union of a disconnect shape carrying a session id and
a user id, and a start-connection shape. -/
inductive ConnectionRequest where
  | Disconnect (session_id : String) (user_id : Nat)
  | StartConnection

/-- Modelled from the spec: the decoder of the connection-control
vocabulary (its source file is not available).  Per the spec the union is
tagged by an implicit discriminator distinguishing the shape with a string
`session_id` and an integer `user_id` (disconnect) from a start-connection
shape, the latter written by clients as an object whose `type` field is
`start_connection`. -/
def ConnectionRequest.fromJson : Json → Option ConnectionRequest
  | .obj fields =>
    match fields.lookup "session_id", fields.lookup "user_id" with
    | some (.str sid), some (.num uid) => some (.Disconnect sid uid)
    | _, _ =>
      match fields.lookup "type" with
      | some (.str "start_connection") => some .StartConnection
      | _ => none
  | _ => none

/-- The outbound envelope vocabulary, from
`src/payloads/communication_response.rs`: success variant `ai_response`
with `status` and `response`, error variant `error` with `status` and
`error`. -/
inductive CommunicationResponse where
  | AIResponse (status : String) (response : String)
  | Error (status : String) (error : String)
deriving Repr, DecidableEq

/-- One Redis hash: an association list from field to value. -/
def hset (h : List (String × String)) (field value : String) :
    List (String × String) :=
  (field, value) :: h.filter (fun p => p.1 != field)

/-- Delete a field from a Redis hash. -/
def hdel (h : List (String × String)) (field : String) :
    List (String × String) :=
  h.filter (fun p => p.1 != field)

/-- Read a field of a Redis hash. -/
def hget (h : List (String × String)) (field : String) : Option String :=
  h.lookup field

/-- The session store state: the two hashes `session:data` (session id to
claims blob) and `session:user` (session id to user id rendered as a
string), each with its key-level time-to-live in seconds. -/
structure RedisState where
  sessionData : List (String × String)
  sessionUser : List (String × String)
  dataTTL : Option Nat
  userTTL : Option Nat

/-- The empty session store. -/
def RedisState.init : RedisState :=
  { sessionData := [], sessionUser := [], dataTTL := none, userTTL := none }

/-- `cache_user_data` from `src/ws/ws_handler.rs`: one atomic Redis
pipeline that hsets the claims blob under `session:data`, hsets the user
id (rendered with `to_string`) under `session:user`, and sets both keys to
expire in 3600 seconds. -/
def cache_user_data (r : RedisState) (session_id : String) (user_id : Nat)
    (claims_json : String) : RedisState :=
  { sessionData := hset r.sessionData session_id claims_json
    sessionUser := hset r.sessionUser session_id (toString user_id)
    dataTTL := some 3600
    userTTL := some 3600 }

/-- `remove_session_data` from `src/ws/ws_handler.rs`: one atomic Redis
pipeline that hdels the session id from both hashes. -/
def remove_session_data (r : RedisState) (session_id : String) : RedisState :=
  { r with
    sessionData := hdel r.sessionData session_id
    sessionUser := hdel r.sessionUser session_id }

/-- One inbound frame after the authentication phase: a text frame (with
its JSON parse, `none` when the text is not valid JSON), an explicit close
frame, or any other frame kind (binary, ping, pong). -/
inductive Frame where
  | text : Option Json → Frame
  | close : Frame
  | other : Frame

/-- A message written directly on the websocket sender: either one of the
raw error objects built with `json!` (carrying a numeric code), or a
serialized `CommunicationResponse`. -/
inductive DirectMsg where
  | err (status : String) (error : String) (code : Nat)
  | resp (r : CommunicationResponse)
deriving Repr, DecidableEq

/-- Observable events of one connection handler run, in program order:
direct websocket sends, the successful session-store write, broadcaster
registration and deregistration of this connection, envelopes enqueued
through `broadcaster.send_to` for this connection, session-store
deletions, and prompts dispatched to the backend. -/
inductive Event where
  | sendDirect (m : DirectMsg)
  | cachePut (session_id : String) (user_id : Nat) (claims_json : String)
  | addClient
  | removeClient
  | enqueue (r : CommunicationResponse)
  | redisDelete (session_id : String)
  | dispatch (prompt : String)
deriving Repr, DecidableEq

/-- The body of the per-request task spawned for an AI request: given the
backend outcome of `run_prompt`, the single envelope it enqueues — a
success envelope carrying the produced text, or an `ai_error` error
envelope carrying the failure description. -/
def ai_task_response (outcome : Except String String) : CommunicationResponse :=
  match outcome with
  | .ok ai_output => .AIResponse "success" ai_output
  | .error e => .Error "ai_error" ("AI processing failed: " ++ e)

/-- The match on a decoded `ConnectionRequest` inside the message loop of
`handle_ws_connection`: a disconnect whose embedded session id equals the
connection's own session id deletes the session record, enqueues the
`disconnected` success envelope and breaks the loop; a mismatched
disconnect does nothing; a start-connection enqueues the
`invalid_request` / `Already connected` error and continues.  The
disconnect arm ignores the embedded user id (bound as `_` in the
source). -/
def handle_connection_request (sessionId : String) (req : ConnectionRequest) :
    List Event × Bool :=
  match req with
  | .Disconnect req_session_id _ =>
    if req_session_id == sessionId then
      ([.redisDelete sessionId,
        .enqueue (.AIResponse "disconnected" "Successfully disconnected")], true)
    else ([], false)
  | .StartConnection =>
    ([.enqueue (.Error "invalid_request" "Already connected")], false)

/-- One iteration of the message loop of `handle_ws_connection`: the
events it emits and whether it breaks the loop.  A text frame is first
tried as a `ConnectionRequest`, else as a `CommunicationRequest` (an AI
request dispatches its prompt to the backend without blocking), else the
`invalid_request` / `Unknown request type` error is enqueued; a close
frame breaks; any other frame kind enqueues the `invalid_message` error
and continues. -/
def process_frame (sessionId : String) (f : Frame) : List Event × Bool :=
  match f with
  | .text j? =>
    match j?.bind ConnectionRequest.fromJson with
    | some req => handle_connection_request sessionId req
    | none =>
      match j?.bind CommunicationRequest.fromJson with
      | some (.AIRequest prompt) => ([.dispatch prompt], false)
      | none =>
        ([.enqueue (.Error "invalid_request" "Unknown request type")], false)
  | .close => ([], true)
  | .other =>
    ([.enqueue (.Error "invalid_message" "Only text messages are supported")],
     false)

/-- The message loop over the remaining inbound frames: the stream ending
(`None` or a read error from `ws_receiver.next()`) is modelled by the list
ending. -/
def process_loop (sessionId : String) : List Frame → List Event
  | [] => []
  | f :: fs =>
    let r := process_frame sessionId f
    if r.2 then r.1 else r.1 ++ process_loop sessionId fs

/-- The inbound processing task: the message loop followed by the
unconditional teardown — deregister this connection from the broadcaster,
then delete the session record, in that order, both best-effort. -/
def inbound_pump (sessionId : String) (frames : List Frame) : List Event :=
  process_loop sessionId frames ++ [.removeClient, .redisDelete sessionId]

/-- Outcome of the authentication phase read: the channel yielded no
frame, the read failed with a reason, or a frame was received and handed
to the external validator whose outcome (identity claims, or a rejection
code and message) is embedded directly. -/
inductive AuthInput where
  | noFrame
  | readError (e : String)
  | frame (validate : Except (Nat × String) Claims)

/-- The serialized body of the `session_created` response:
`json!` with the session id and the user id, in that field order. -/
def sessionCreatedBody (session_id : String) (user_id : Nat) : String :=
  "\x7b\"session_id\":\"" ++ session_id ++ "\",\"user_id\":" ++
    toString user_id ++ "\x7d"

/-- `handle_ws_connection` from `src/ws/ws_handler.rs` as the trace of
events it produces, given the authentication-phase outcome, the outcome of
the session-store write (`cache : Except String Unit`), the minted session
id, and the post-authentication inbound frames.  Authentication failures
and a failed store write each send exactly one direct error envelope and
return; on success the store write, the broadcaster registration and the
`session_created` send happen in that order, followed by the inbound
pump. -/
def handle_ws_connection (auth : AuthInput) (cache : Except String Unit)
    (sessionId : String) (frames : List Frame) : List Event :=
  match auth with
  | .noFrame =>
    [.sendDirect (.err "no_message" "No initial message received" 400)]
  | .readError e =>
    [.sendDirect (.err "connection_error" ("Failed to read message: " ++ e) 400)]
  | .frame validate =>
    match validate with
    | .error (code, msg) =>
      [.sendDirect (.err "authentication_failed" msg code)]
    | .ok claims =>
      match cache with
      | .error e =>
        [.sendDirect (.err "cache_error" ("Failed to cache user data: " ++ e) 500)]
      | .ok _ =>
        .cachePut sessionId claims.sub claims.blob ::
        .addClient ::
        .sendDirect (.resp (.AIResponse "session_created"
          (sessionCreatedBody sessionId claims.sub))) ::
        inbound_pump sessionId frames

/-- Modelled from the spec: the broadcaster / client registry
(`src/ws/ws_channel.rs` is not among the available sources).  A mapping
from connection identifier to that connection's outbound message queue;
`add_client` registers an id replacing any prior entry, `remove_client` is
idempotent, and `send_to` appends to the queue of a registered id and
silently drops the message otherwise. -/
structure WsBroadcaster where
  clients : List (String × List CommunicationResponse)

/-- The empty registry. -/
def WsBroadcaster.init : WsBroadcaster := ⟨[]⟩

/-- Modelled from the spec: register an outbound queue for `id`,
replacing any prior entry. -/
def WsBroadcaster.add_client (b : WsBroadcaster) (id : String) : WsBroadcaster :=
  ⟨(id, []) :: b.clients.filter (fun p => p.1 != id)⟩

/-- Modelled from the spec: delete the entry of `id`; idempotent. -/
def WsBroadcaster.remove_client (b : WsBroadcaster) (id : String) : WsBroadcaster :=
  ⟨b.clients.filter (fun p => p.1 != id)⟩

/-- Modelled from the spec: enqueue `msg` for `id` when registered,
silently drop it otherwise. -/
def WsBroadcaster.send_to (b : WsBroadcaster) (id : String)
    (msg : CommunicationResponse) : WsBroadcaster :=
  ⟨b.clients.map (fun p => if p.1 == id then (p.1, p.2 ++ [msg]) else p)⟩

/-- Whether `id` is registered. -/
def WsBroadcaster.registered (b : WsBroadcaster) (id : String) : Bool :=
  (b.clients.lookup id).isSome

/-- The state a connection's trace acts on: the session store, the
broadcaster registry, the messages sent directly on the websocket, and
the prompts handed to the backend dispatcher. -/
structure GatewayState where
  redis : RedisState
  broadcaster : WsBroadcaster
  sentDirect : List DirectMsg
  dispatched : List String

/-- The initial state: empty store, empty registry, nothing sent. -/
def GatewayState.init : GatewayState :=
  { redis := RedisState.init, broadcaster := WsBroadcaster.init,
    sentDirect := [], dispatched := [] }

/-- Interpret one event of the connection `cid` against the state. -/
def applyEvent (cid : String) (s : GatewayState) : Event → GatewayState
  | .sendDirect m => { s with sentDirect := s.sentDirect ++ [m] }
  | .cachePut sid uid blob => { s with redis := cache_user_data s.redis sid uid blob }
  | .addClient => { s with broadcaster := s.broadcaster.add_client cid }
  | .removeClient => { s with broadcaster := s.broadcaster.remove_client cid }
  | .enqueue r => { s with broadcaster := s.broadcaster.send_to cid r }
  | .redisDelete sid => { s with redis := remove_session_data s.redis sid }
  | .dispatch p => { s with dispatched := s.dispatched ++ [p] }

/-- Run a trace of events for connection `cid` from state `s0`. -/
def runTrace (cid : String) (s0 : GatewayState) (evs : List Event) : GatewayState :=
  evs.foldl (applyEvent cid) s0

/-- Whether a session record for `sid` is visible in the store: either
sub-key present. -/
def GatewayState.sessionStored (s : GatewayState) (sid : String) : Bool :=
  (hget s.redis.sessionData sid).isSome || (hget s.redis.sessionUser sid).isSome

/-- The canonical JSON shape of a disconnect control frame. -/
def disconnectJson (rsid : String) (uid : Nat) : Json :=
  .obj [("session_id", .str rsid), ("user_id", .num uid)]

/-- The canonical JSON shape of a start-connection control frame. -/
def startConnJson : Json :=
  .obj [("type", .str "start_connection")]

/-- Whether an object carries a string `prompt` field. -/
def promptIsString (fields : List (String × Json)) : Bool :=
  match fields.lookup "prompt" with
  | some (.str _) => true
  | _ => false

/-- Whether an object carries the disconnect shape: a string `session_id`
field together with an integer `user_id` field. -/
def hasDisconnectShape (fields : List (String × Json)) : Bool :=
  match fields.lookup "session_id", fields.lookup "user_id" with
  | some (.str _), some (.num _) => true
  | _, _ => false

/-! ### Helper lemmas -/

/-- The canonical disconnect frame decodes to the disconnect variant. -/
theorem disconnectJson_decode (rsid : String) (uid : Nat) :
    ConnectionRequest.fromJson (disconnectJson rsid uid)
      = some (.Disconnect rsid uid) := rfl

/-- A single frame of the message loop never registers or deregisters the
connection: broadcaster membership changes only at setup and teardown. -/
theorem process_frame_no_registry_change (sid : String) (f : Frame) :
    Event.removeClient ∉ (process_frame sid f).1
    ∧ Event.addClient ∉ (process_frame sid f).1 := by
  cases f with
  | text j? =>
    cases hc : j?.bind ConnectionRequest.fromJson with
    | some req =>
      cases req with
      | Disconnect rsid uid =>
        by_cases h : rsid == sid <;>
          simp [process_frame, handle_connection_request, hc, h]
      | StartConnection =>
        simp [process_frame, handle_connection_request, hc]
    | none =>
      cases hm : j?.bind CommunicationRequest.fromJson with
      | some r => cases r with
        | AIRequest p => simp [process_frame, hc, hm]
      | none => simp [process_frame, hc, hm]
  | close => simp [process_frame]
  | other => simp [process_frame]

/-- The whole message loop never registers or deregisters the
connection. -/
theorem process_loop_no_registry_change (sid : String) (frames : List Frame) :
    Event.removeClient ∉ process_loop sid frames := by
  induction frames with
  | nil => simp [process_loop]
  | cons f fs ih =>
    simp only [process_loop]
    by_cases h : (process_frame sid f).2 <;>
      simp [h, (process_frame_no_registry_change sid f).1, ih]

/-- Filtering out a key makes its lookup fail. -/
theorem lookup_filter_ne {β : Type} (cid : String) (l : List (String × β)) :
    (l.filter (fun p => p.1 != cid)).lookup cid = none := by
  induction l with
  | nil => rfl
  | cons p l ih =>
    by_cases h : p.1 = cid
    · simp [List.filter, h, ih]
    · simp only [List.filter]
      rw [show (p.1 != cid) = true by simp [h]]
      simp [List.lookup, show (cid == p.1) = false by simp [Ne.symm h], ih]

/-! ### Claim theorems -/

/-- C1: exactly one authentication attempt is made on the first inbound
frame, and each failure outcome is terminal with exactly one error
envelope: no frame yields a `no_message` error with code 400; a read
failure yields a `connection_error` error with code 400 carrying the
underlying reason; validator rejection with a code and message yields an
`authentication_failed` error carrying them — each trace is that single
direct send, so no session record is written and no broadcaster entry is
added. -/
theorem C1_auth_failure_terminal (e msg : String) (code : Nat)
    (cache : Except String Unit) (sid cid : String) (frames : List Frame)
    (s0 : GatewayState) :
    handle_ws_connection .noFrame cache sid frames
      = [.sendDirect (.err "no_message" "No initial message received" 400)]
    ∧ handle_ws_connection (.readError e) cache sid frames
      = [.sendDirect
          (.err "connection_error" ("Failed to read message: " ++ e) 400)]
    ∧ handle_ws_connection (.frame (.error (code, msg))) cache sid frames
      = [.sendDirect (.err "authentication_failed" msg code)]
    ∧ (∀ m : DirectMsg,
        (runTrace cid s0 [.sendDirect m]).redis = s0.redis
        ∧ (runTrace cid s0 [.sendDirect m]).broadcaster = s0.broadcaster) :=
  ⟨rfl, rfl, rfl, fun _ => ⟨rfl, rfl⟩⟩

/-- C2: on successful authentication, a failed session-store write sends
exactly one `cache_error` error with code 500 and leaves the broadcaster
untouched; a successful write produces the store write, then the
broadcaster registration, then the `session_created` success envelope with
the session id and user id, in that order, before the inbound pump
runs. -/
theorem C2_session_creation (claims : Claims) (e sid cid : String)
    (frames : List Frame) (s0 : GatewayState) :
    handle_ws_connection (.frame (.ok claims)) (.error e) sid frames
      = [.sendDirect
          (.err "cache_error" ("Failed to cache user data: " ++ e) 500)]
    ∧ (runTrace cid s0
        (handle_ws_connection (.frame (.ok claims)) (.error e) sid frames)
       ).broadcaster = s0.broadcaster
    ∧ handle_ws_connection (.frame (.ok claims)) (.ok ()) sid frames
      = .cachePut sid claims.sub claims.blob ::
        .addClient ::
        .sendDirect (.resp (.AIResponse "session_created"
          (sessionCreatedBody sid claims.sub))) ::
        inbound_pump sid frames :=
  ⟨rfl, rfl, rfl⟩

/-- C3: a session-store write puts the claims blob and the user id under
the session id in one atomic pipeline, with both time-to-lives set to the
same fixed 3600 seconds, so the two sub-keys expire together. -/
theorem C3_cache_put_atomic_ttl (r : RedisState) (sid : String) (uid : Nat)
    (cj : String) :
    hget (cache_user_data r sid uid cj).sessionData sid = some cj
    ∧ hget (cache_user_data r sid uid cj).sessionUser sid
        = some (toString uid)
    ∧ (cache_user_data r sid uid cj).dataTTL
        = (cache_user_data r sid uid cj).userTTL
    ∧ (cache_user_data r sid uid cj).dataTTL = some 3600 := by
  refine ⟨?_, ?_, rfl, rfl⟩ <;> simp [cache_user_data, hget, hset, List.lookup]

/-- C4: classification of a post-authentication text frame is
first-match-wins: a frame decoding in the connection-control vocabulary is
handled there (in particular `start_connection` enqueues the
`invalid_request` / `Already connected` error and the pump continues),
regardless of the application decode; a frame decoding in neither
vocabulary enqueues the `invalid_request` / `Unknown request type` error
and the pump continues. -/
theorem C4_classification_order (sid : String) (j : Json) :
    (ConnectionRequest.fromJson j = some .StartConnection →
      process_frame sid (.text (some j))
        = ([.enqueue (.Error "invalid_request" "Already connected")], false))
    ∧ (∀ req, ConnectionRequest.fromJson j = some req →
        process_frame sid (.text (some j))
          = handle_connection_request sid req)
    ∧ (ConnectionRequest.fromJson j = none →
       CommunicationRequest.fromJson j = none →
        process_frame sid (.text (some j))
          = ([.enqueue (.Error "invalid_request" "Unknown request type")],
             false)) := by
  refine ⟨fun h => ?_, fun req h => ?_, fun h1 h2 => ?_⟩ <;>
    simp_all [process_frame, handle_connection_request]

/-- C4 witness: a concrete `start_connection` frame is answered with
`Already connected`, and a concrete frame in neither vocabulary with
`Unknown request type`, both leaving the pump running. -/
theorem C4_classification_order_witness :
    process_frame "s" (.text (some startConnJson))
      = ([.enqueue (.Error "invalid_request" "Already connected")], false)
    ∧ process_frame "s" (.text (some (Json.str "x")))
      = ([.enqueue (.Error "invalid_request" "Unknown request type")],
         false) :=
  ⟨(C4_classification_order "s" startConnJson).1 rfl,
   (C4_classification_order "s" (Json.str "x")).2.2 rfl rfl⟩

/-- C5: a disconnect control frame whose embedded session id equals the
connection's own session id deletes the session record, enqueues the
`disconnected` success envelope, and stops the inbound pump after that
frame (the remaining frames are never processed); a disconnect frame with
a different session id produces no event and no visible change for that
frame. -/
theorem C5_disconnect (sid rsid : String) (uid : Nat) (j : Json)
    (fs : List Frame)
    (h : ConnectionRequest.fromJson j = some (.Disconnect rsid uid)) :
    (rsid = sid →
      process_frame sid (.text (some j))
        = ([.redisDelete sid,
            .enqueue (.AIResponse "disconnected" "Successfully disconnected")],
           true)
      ∧ process_loop sid (.text (some j) :: fs)
        = [.redisDelete sid,
           .enqueue (.AIResponse "disconnected" "Successfully disconnected")])
    ∧ (rsid ≠ sid →
      process_frame sid (.text (some j)) = ([], false)
      ∧ process_loop sid (.text (some j) :: fs) = process_loop sid fs) := by
  constructor
  · rintro rfl
    have hp : process_frame rsid (.text (some j))
        = ([.redisDelete rsid,
            .enqueue (.AIResponse "disconnected" "Successfully disconnected")],
           true) := by
      simp [process_frame, handle_connection_request, h]
    exact ⟨hp, by simp [process_loop, hp]⟩
  · intro hne
    have hp : process_frame sid (.text (some j)) = ([], false) := by
      simp [process_frame, handle_connection_request, h, hne]
    exact ⟨hp, by simp [process_loop, hp]⟩

/-- C5 witness: on a connection with session id `s1`, a concrete matching
disconnect frame deletes the record, answers `disconnected` and stops the
loop, while a concrete mismatched one changes nothing for that frame. -/
theorem C5_disconnect_witness :
    (process_frame "s1" (.text (some (disconnectJson "s1" 7)))
      = ([.redisDelete "s1",
          .enqueue (.AIResponse "disconnected" "Successfully disconnected")],
         true)
     ∧ process_loop "s1" (.text (some (disconnectJson "s1" 7)) :: [.close])
      = [.redisDelete "s1",
         .enqueue (.AIResponse "disconnected" "Successfully disconnected")])
    ∧ (process_frame "s1" (.text (some (disconnectJson "s2" 7))) = ([], false)
     ∧ process_loop "s1" (.text (some (disconnectJson "s2" 7)) :: [.close])
      = process_loop "s1" [.close]) :=
  ⟨(C5_disconnect "s1" "s1" 7 (disconnectJson "s1" 7) [.close]
      (disconnectJson_decode "s1" 7)).1 rfl,
   (C5_disconnect "s1" "s2" 7 (disconnectJson "s2" 7) [.close]
      (disconnectJson_decode "s2" 7)).2 (by decide)⟩

/-- C6: an application frame decoding as an AI request hands exactly its
prompt to the backend dispatcher and continues the pump (the frame's only
event is the dispatch, so the pump is not blocked on the backend); the
spawned task enqueues exactly one envelope matching the backend outcome —
a success envelope carrying the produced text, or an `ai_error` error
envelope carrying the failure description. -/
theorem C6_ai_request (sid p : String) (j : Json)
    (hconn : ConnectionRequest.fromJson j = none)
    (hcomm : CommunicationRequest.fromJson j = some (.AIRequest p)) :
    process_frame sid (.text (some j)) = ([.dispatch p], false)
    ∧ (∀ ai_output, ai_task_response (.ok ai_output)
        = .AIResponse "success" ai_output)
    ∧ (∀ e, ai_task_response (.error e)
        = .Error "ai_error" ("AI processing failed: " ++ e)) := by
  refine ⟨?_, fun _ => rfl, fun _ => rfl⟩
  simp [process_frame, hconn, hcomm]

/-- C6 witness: a concrete `ai_request` frame dispatches its prompt and
continues, and the task envelopes match the two backend outcomes. -/
theorem C6_ai_request_witness :
    process_frame "s"
        (.text (some (.obj [("type", .str "ai_request"),
                            ("prompt", .str "hi")])))
      = ([.dispatch "hi"], false)
    ∧ ai_task_response (.ok "hello") = .AIResponse "success" "hello"
    ∧ ai_task_response (.error "boom")
      = .Error "ai_error" ("AI processing failed: " ++ "boom") :=
  ⟨(C6_ai_request "s" "hi"
      (.obj [("type", .str "ai_request"), ("prompt", .str "hi")])
      rfl rfl).1,
   (C6_ai_request "s" "hi"
      (.obj [("type", .str "ai_request"), ("prompt", .str "hi")])
      rfl rfl).2.1 "hello",
   (C6_ai_request "s" "hi"
      (.obj [("type", .str "ai_request"), ("prompt", .str "hi")])
      rfl rfl).2.2 "boom"⟩

/-- C7: a post-authentication inbound frame that is neither text nor close
(binary, ping, pong) enqueues the `invalid_message` / `Only text messages
are supported` error and the pump continues with the remaining frames,
while an explicit close frame stops the pump with no envelope. -/
theorem C7_non_text_frames (sid : String) (fs : List Frame) :
    process_frame sid .other
      = ([.enqueue
            (.Error "invalid_message" "Only text messages are supported")],
         false)
    ∧ process_loop sid (.other :: fs)
      = .enqueue (.Error "invalid_message" "Only text messages are supported")
          :: process_loop sid fs
    ∧ process_frame sid .close = ([], true)
    ∧ process_loop sid (.close :: fs) = [] := by
  refine ⟨rfl, ?_, rfl, ?_⟩ <;> simp [process_loop, process_frame]

/-- C8: the inbound pump, whatever makes its loop stop, always ends with
the teardown pair — deregister this connection from the broadcaster, then
delete the session record, in that order; the loop itself never emits the
deregistration, and after the teardown the connection is no longer
registered while the rest of the registry is intact. -/
theorem C8_teardown (sid cid : String) (frames : List Frame)
    (s : GatewayState) :
    (∃ evs, inbound_pump sid frames
        = evs ++ [.removeClient, .redisDelete sid]
      ∧ Event.removeClient ∉ evs)
    ∧ (runTrace cid s [.removeClient, .redisDelete sid]
        ).broadcaster.registered cid = false
    ∧ (runTrace cid s [.removeClient, .redisDelete sid]).redis
      = remove_session_data s.redis sid := by
  refine ⟨⟨process_loop sid frames, rfl,
    process_loop_no_registry_change sid frames⟩, ?_, rfl⟩
  simp [runTrace, applyEvent, WsBroadcaster.registered,
    WsBroadcaster.remove_client, lookup_filter_ne]

/-- C9: disconnect handling depends only on the embedded session id,
never on the embedded user id: the control-frame handler and the whole
frame step behave identically on two disconnect frames that differ only in
their user id. -/
theorem C9_user_id_never_compared (sid rsid : String) (u1 u2 : Nat) :
    handle_connection_request sid (.Disconnect rsid u1)
      = handle_connection_request sid (.Disconnect rsid u2)
    ∧ process_frame sid (.text (some (disconnectJson rsid u1)))
      = process_frame sid (.text (some (disconnectJson rsid u2))) :=
  ⟨rfl, rfl⟩

/-- C10: a text frame tagged `ai_request` whose `prompt` field is missing
or not a string (and which does not carry the disconnect shape) fails both
decoders and is answered with the `invalid_request` / `Unknown request
type` error, with no backend dispatch and the pump continuing. -/
theorem C10_malformed_ai_request (sid : String)
    (fields : List (String × Json))
    (htag : fields.lookup "type" = some (.str "ai_request"))
    (hprompt : promptIsString fields = false)
    (hshape : hasDisconnectShape fields = false) :
    process_frame sid (.text (some (.obj fields)))
      = ([.enqueue (.Error "invalid_request" "Unknown request type")],
         false) := by
  have hcomm : CommunicationRequest.fromJson (.obj fields) = none := by
    simp only [CommunicationRequest.fromJson, htag]
    unfold promptIsString at hprompt
    cases hp : fields.lookup "prompt" with
    | none => simp
    | some v => cases v <;> simp_all
  have hconn : ConnectionRequest.fromJson (.obj fields) = none := by
    simp only [ConnectionRequest.fromJson]
    unfold hasDisconnectShape at hshape
    cases h1 : fields.lookup "session_id" with
    | none => simp [htag]
    | some v1 =>
      cases h2 : fields.lookup "user_id" with
      | none => cases v1 <;> simp [htag]
      | some v2 => cases v1 <;> cases v2 <;> simp_all [htag]
  simp [process_frame, hconn, hcomm]

/-- C10 witness: the concrete frame tagged `ai_request` with no `prompt`
field is answered with `Unknown request type` and the pump continues. -/
theorem C10_malformed_ai_request_witness :
    process_frame "s" (.text (some (.obj [("type", .str "ai_request")])))
      = ([.enqueue (.Error "invalid_request" "Unknown request type")],
         false) :=
  C10_malformed_ai_request "s" [("type", .str "ai_request")] rfl rfl rfl

end CustomerAI
